import Mathlib

/-!
Shallow embedding of the `hust` Hue-bridge client library.

The embedding covers the two subsystems the specified claims are about:

* the response-protocol interpretation in `src/bridge.rs`
  (`ApiResponseSection`, the analysis loop inside `Bridge::register_user`,
  `Bridge::light_change_result`, `Bridge::modify_light`,
  `Bridge::switch_light`), and
* the SSDP discovery iterator in `src/discovery.rs`
  (`receive_answer`, `BridgeFinder` and its `Iterator::next`).

Network and socket effects are modelled by passing the observed outcomes
(received datagrams, socket errors, observed elapsed times, wire responses)
as explicit inputs, so that every definition is an executable function of
the environment the real code reads from.
-/

namespace Hust

/-- Model of `serde_json::Value`, with serde's variant names. Numbers are
restricted to integers: no claim under study touches float formatting, and
the response payloads the code inspects are only compared and
re-serialized, never computed with. -/
inductive Value where
  | null
  | boolean (b : Bool)
  | number (i : Int)
  | string (s : String)
  | array (items : List Value)
  | object (entries : List (String × Value))

/-- Lowercase hexadecimal digit, as serde_json's serializer uses in its
control-character escapes. -/
def hex_digit (n : Nat) : Char :=
  Char.ofNat (if n < 10 then '0'.toNat + n else 'a'.toNat + (n - 10))

/-- How serde_json's serializer writes one character of a JSON string:
quote and backslash get a backslash escape, the control characters below
U+0020 get their short escape when one exists (`\b \f \n \r \t`) and a
`\u00XX` escape otherwise, and everything else is passed through. -/
def escape_char (c : Char) : List Char :=
  if c = '"' ∨ c = '\\' then ['\\', c]
  else if c.toNat ≥ 32 then [c]
  else if c = '\n' then ('\\' :: "n".data)
  else if c = '\r' then ('\\' :: "r".data)
  else if c = '\t' then ('\\' :: "t".data)
  else if c = Char.ofNat 8 then ('\\' :: "b".data)
  else if c = Char.ofNat 12 then ('\\' :: "f".data)
  else '\\' :: 'u' :: '0' :: '0' :: hex_digit (c.toNat / 16) :: [hex_digit (c.toNat % 16)]

/-- A JSON string literal: opening quote, escaped characters, closing
quote. -/
def quote_chars (s : String) : List Char :=
  '"' :: s.data.foldr (fun c acc => escape_char c ++ acc) ['"']

mutual

/-- Model of `serde_json::Value`'s `Display` (what `value.to_string()`
produces): compact JSON serialization. In particular a string value is
rendered together with its surrounding quotes. -/
def Value.render_chars : Value → List Char
  | .null => "null".data
  | .boolean b => (cond b "true" "false").data
  | .number i => (toString i).data
  | .string s => quote_chars s
  | .array items => '[' :: comma_join_items items ++ [']']
  | .object entries =>
    Char.ofNat 123 :: comma_join_entries entries ++ [Char.ofNat 125]

/-- Array items rendered with comma separators. -/
def comma_join_items : List Value → List Char
  | [] => []
  | [item] => item.render_chars
  | item :: next :: more => item.render_chars ++ ',' :: comma_join_items (next :: more)

/-- Object entries rendered as quoted key, colon, value, with comma
separators. -/
def comma_join_entries : List (String × Value) → List Char
  | [] => []
  | [(key, val)] => quote_chars key ++ ':' :: val.render_chars
  | (key, val) :: nxt :: more =>
    quote_chars key ++ ':' :: val.render_chars ++ ',' :: comma_join_entries (nxt :: more)

end

/-- Model of `serde_json::Value::to_string()` returning a `String`. -/
def Value.render (v : Value) : String := ⟨v.render_chars⟩

mutual

/-- Boolean equality test on the JSON model (so that concrete response
payloads can be evaluated with `decide`). -/
def Value.beq : Value → Value → Bool
  | .null, .null => true
  | .boolean x, .boolean y => x = y
  | .number x, .number y => x = y
  | .string x, .string y => x = y
  | .array x, .array y => Value.beqItems x y
  | .object x, .object y => Value.beqEntries x y
  | _, _ => false

/-- Item-wise equality test of JSON arrays. -/
def Value.beqItems : List Value → List Value → Bool
  | [], [] => true
  | x :: xs, y :: ys => Value.beq x y && Value.beqItems xs ys
  | _, _ => false

/-- Entry-wise equality test of JSON objects. -/
def Value.beqEntries : List (String × Value) → List (String × Value) → Bool
  | [], [] => true
  | (k, v) :: xs, (l, w) :: ys => k = l && Value.beq v w && Value.beqEntries xs ys
  | _, _ => false

end

mutual

/-- Soundness of `Value.beq`: a `true` test implies propositional
equality. -/
theorem Value.beq_eq : ∀ x y : Value, Value.beq x y = true → x = y
  | .null, .null, _ => rfl
  | .boolean _, .boolean _, h => by
    simp only [Value.beq, decide_eq_true_eq] at h; rw [h]
  | .number _, .number _, h => by
    simp only [Value.beq, decide_eq_true_eq] at h; rw [h]
  | .string _, .string _, h => by
    simp only [Value.beq, decide_eq_true_eq] at h; rw [h]
  | .array x, .array y, h => by
    simp only [Value.beq] at h; rw [Value.beqItems_eq x y h]
  | .object x, .object y, h => by
    simp only [Value.beq] at h; rw [Value.beqEntries_eq x y h]

/-- Soundness of `Value.beqItems`. -/
theorem Value.beqItems_eq : ∀ x y : List Value, Value.beqItems x y = true → x = y
  | [], [], _ => rfl
  | x :: xs, y :: ys, h => by
    simp only [Value.beqItems, Bool.and_eq_true] at h
    rw [Value.beq_eq x y h.1, Value.beqItems_eq xs ys h.2]

/-- Soundness of `Value.beqEntries`. -/
theorem Value.beqEntries_eq :
    ∀ x y : List (String × Value), Value.beqEntries x y = true → x = y
  | [], [], _ => rfl
  | (k, v) :: xs, (l, w) :: ys, h => by
    simp only [Value.beqEntries, Bool.and_eq_true, decide_eq_true_eq] at h
    rw [h.1.1, Value.beq_eq v w h.1.2, Value.beqEntries_eq xs ys h.2]

end

mutual

/-- `Value.beq` holds on equal arguments. -/
theorem Value.beq_refl : ∀ x : Value, Value.beq x x = true
  | .null => rfl
  | .boolean _ => by simp [Value.beq]
  | .number _ => by simp [Value.beq]
  | .string _ => by simp [Value.beq]
  | .array x => by simp only [Value.beq]; exact Value.beqItems_refl x
  | .object x => by simp only [Value.beq]; exact Value.beqEntries_refl x

/-- `Value.beqItems` holds on equal arguments. -/
theorem Value.beqItems_refl : ∀ x : List Value, Value.beqItems x x = true
  | [] => rfl
  | x :: xs => by
    simp only [Value.beqItems, Bool.and_eq_true]
    exact ⟨Value.beq_refl x, Value.beqItems_refl xs⟩

/-- `Value.beqEntries` holds on equal arguments. -/
theorem Value.beqEntries_refl :
    ∀ x : List (String × Value), Value.beqEntries x x = true
  | [] => rfl
  | (k, v) :: xs => by
    simp [Value.beqEntries, Value.beq_refl v, Value.beqEntries_refl xs]

end

instance : DecidableEq Value := fun x y =>
  if h : Value.beq x y = true then
    .isTrue (Value.beq_eq x y h)
  else
    .isFalse (fun he => h (he ▸ Value.beq_refl x))

deriving instance DecidableEq for Except

/-- Modelled from the spec: the crate's `error` module (`src/error.rs` is
declared in `lib.rs` but not among the provided sources) defines `ApiError`,
the structured error entry a bridge reports. Per the spec (§3, §7) such an
entry carries a kind, a locus and a description; on the wire these are the
fields `type`, `address` and `description`. The interpretation logic under
study treats these entries opaquely. -/
structure ApiError where
  errType : Int
  address : String
  description : String
deriving DecidableEq

/-- Rust `ApiResponseSection` from `src/bridge.rs`: one element of a bridge
response list, either an error object or a success payload
(`HashMap<String, serde_json::Value>`; the map is modelled as an
association list, which is faithful here because the code only ever calls
`.get` on it). -/
inductive ApiResponseSection where
  | err (e : ApiError)
  | success (hashmap : List (String × Value))
deriving DecidableEq

/-- The scanning loop inside `Bridge::register_user` (`src/bridge.rs`):

    let mut errors = vec![];
    let mut success = None;
    for section in response {
        match section {
            ApiResponseSection::Err(e) => errors.push(e),
            ApiResponseSection::Success(hashmap) => success = Some(hashmap),
        }
    }

Errors are pushed in response order; each `Success` overwrites `success`,
so after the loop `success` holds the payload of the last `Success`
section. -/
def register_user_scan :
    List ApiError → Option (List (String × Value)) → List ApiResponseSection →
      List ApiError × Option (List (String × Value))
  | errors, success, [] => (errors, success)
  | errors, success, .err e :: rest => register_user_scan (errors ++ [e]) success rest
  | errors, _, .success hashmap :: rest => register_user_scan errors (some hashmap) rest

/-- The tail of `Bridge::register_user` after the scanning loop:

    if let Some(hashmap) = success {
        if let Some(username) = hashmap.get("username") {
            return Ok(username.to_string());
        }
    }
    Err(errors)?

`username.to_string()` is `serde_json::Value`'s `Display`, i.e.
`Value.render`. The `Err(errors)?` conversion of the collected
`Vec<ApiError>` into the crate error type (modelled from the spec, since
`src/error.rs` is absent: the spec's `AggregatedFailure` is exactly the
ordered list of collected device errors) is taken as the identity on the
list. -/
def register_user_finish :
    List ApiError × Option (List (String × Value)) → Except (List ApiError) String
  | (errors, some hashmap) =>
    match List.lookup "username" hashmap with
    | some username => .ok username.render
    | none => .error errors
  | (errors, none) => .error errors

/-- The response-analysis portion of `Bridge::register_user`
(`src/bridge.rs`): the HTTP POST and JSON decoding are external, so the
function is modelled on the already-decoded section list. -/
def register_user_interpret (response : List ApiResponseSection) :
    Except (List ApiError) String :=
  register_user_finish (register_user_scan [] none response)

/-- The `Iterator::any` call inside `Bridge::light_change_result`, with its
side-effecting closure:

    response.into_iter().any(|section|
        match section {
            ApiResponseSection::Success(_) => true,
            ApiResponseSection::Err(e) => { errors.push(e); false }
        });

`any` short-circuits at the first `Success`, so errors are accumulated only
up to that point; when no `Success` exists, every error is pushed in
response order. Returns (any-result, accumulated errors). -/
def light_scan : List ApiError → List ApiResponseSection → Bool × List ApiError
  | errors, [] => (false, errors)
  | errors, .success _ :: _ => (true, errors)
  | errors, .err e :: rest => light_scan (errors ++ [e]) rest

/-- Rust `Bridge::light_change_result` (`src/bridge.rs`): interpretation of
the response to a light-changing request. As for registration, the
`Err(errors)?` wrapper conversion is modelled as the identity on the
collected error list (spec's `AggregatedFailure`). -/
def light_change_result (response : List ApiResponseSection) :
    Except (List ApiError) Unit :=
  let scanned := light_scan [] response
  if scanned.1 then .ok () else .error scanned.2

/-- The request `Bridge::modify_light` constructs: the PUT target URL
`format!("{}api/{}/lights/{}/state", self.url_base, user, light)` and the
single-entry JSON body built from `params.insert(key, value)`. -/
structure MutationRequest where
  url : String
  body : List (String × Value)
deriving DecidableEq

/-- Rust `Bridge::modify_light` (`src/bridge.rs`), with the network effect
made explicit: it determines the request that is sent and, given the
decoded wire response, delegates the outcome to `light_change_result`. The
generic `T: Serialize` value is modelled as an already-serialized `Value`. -/
def modify_light (url_base user light key : String) (value : Value)
    (wire_response : List ApiResponseSection) :
    MutationRequest × Except (List ApiError) Unit :=
  (⟨url_base ++ "api/" ++ user ++ "/lights/" ++ light ++ "/state", [(key, value)]⟩,
   light_change_result wire_response)

/-- Rust `Bridge::switch_light` (`src/bridge.rs`):

    pub fn switch_light(&self, user: &str, light: &str, on: bool) -> Result<()> {
        self.modify_light(user, light, "on", on)
    }

with `on: bool` serializing to the JSON boolean. -/
def switch_light (url_base user light : String) (onVal : Bool)
    (wire_response : List ApiResponseSection) :
    MutationRequest × Except (List ApiError) Unit :=
  modify_light url_base user light "on" (.boolean onVal) wire_response

/-! ## Discovery (`src/discovery.rs`) -/

/-- The `std::io::ErrorKind` values the discovery code distinguishes:
`WouldBlock` (timeout-class receive failure), `InvalidData` (malformed
packet, raised by `receive_answer`), `InvalidInput` (raised by
`set_read_timeout` on a zero duration), and a catch-all for every other
socket error. -/
inductive ErrorKind where
  | wouldBlock
  | invalidData
  | invalidInput
  | other
deriving DecidableEq

/-- One outcome of `socket.recv_from`: either a datagram arrives (with the
source address the code immediately discards) or the call fails with some
error kind. The datagram is modelled as the decoded text
(`String::from_utf8_lossy` of the received bytes). -/
inductive RecvOutcome where
  | packet (addr : String) (data : String)
  | fail (kind : ErrorKind)
deriving DecidableEq

/-- One loop iteration's view of the environment: the value
`self.start.elapsed()` observes at the top of `BridgeFinder::next`'s body
(a duration, in arbitrary fixed units), and the outcome the socket then
delivers. Real elapsed times are nondecreasing across iterations; the model
leaves that as a hypothesis where a claim needs it. -/
structure Tick where
  elapsed : Nat
  recv : RecvOutcome
deriving DecidableEq

/-- The mutable state of Rust `BridgeFinder` (`src/discovery.rs`): the
configured timeout (same units as `Tick.elapsed`) and the deduplication set
`seen_urls` (a `HashSet<String>`, modelled as the list of inserted URLs;
only insertion and membership are used). `start` and `socket` are
represented by the `Tick` environment. -/
structure BridgeFinder where
  timeout : Nat
  seen_urls : List String
deriving DecidableEq

/-- What one call of `BridgeFinder::next` can hand to the caller:
`resolve url` stands for `Some(Bridge::from_description_url(url))` — a
resolution attempt on `url` is made and its result (success or failure)
yielded — and `err k` stands for `Some(Err(e))` with an error of kind `k`
(the crate-error wrapper `e.into()` is the identity on the kind). -/
inductive DiscoveryItem where
  | resolve (url : String)
  | err (kind : ErrorKind)
deriving DecidableEq

/-- Check that `s` starts with the pattern `pat` (Rust `str::starts_with`).  -/
def chars_start_with : List Char → List Char → Bool
  | _, [] => true
  | [], _ :: _ => false
  | c :: cs, p :: ps => c = p && chars_start_with cs ps

/-- Split a character sequence at every newline, keeping empty pieces
(the pieces between consecutive `\n`s). -/
def split_nl : List Char → List (List Char)
  | [] => [[]]
  | c :: cs =>
    if c = '\n' then [] :: split_nl cs
    else
      match split_nl cs with
      | [] => [[c]]
      | l :: ls => (c :: l) :: ls

/-- Drop one trailing carriage return, for pieces that were terminated by a
`\n` (so that `\r\n` counts as one line ending). -/
def strip_cr (l : List Char) : List Char :=
  if l.getLast? = some '\r' then l.dropLast else l

/-- Model of Rust `str::lines()`: split at `\n`, treat a `\r` immediately
before a `\n` as part of the line ending, and do not produce a final empty
line when the text ends in a line ending. A lone trailing `\r` not followed
by `\n` stays part of the last line. -/
def rust_lines (s : String) : List (List Char) :=
  match (split_nl s.data).reverse with
  | [] => []
  | last :: revInit =>
    let init := revInit.reverse.map strip_cr
    if last = [] then init else init ++ [last]

/-- Rust `line.strip_prefix("LOCATION: ")`: the URL part of a LOCATION
header line, when the line is one. -/
def location_of_line (line : List Char) : Option (List Char) :=
  if chars_start_with line "LOCATION: ".data then
    some (line.drop "LOCATION: ".data.length)
  else none

/-- The header scan inside `receive_answer`: the first `LOCATION: ` line
wins. -/
def find_location : List (List Char) → Option (List Char)
  | [] => none
  | line :: rest =>
    match location_of_line line with
    | some url => some url
    | none => find_location rest

/-- The parsing part of `receive_answer` (`src/discovery.rs`), applied to
one received datagram: the first line must start with `HTTP/1.1 200 OK`,
and a later `LOCATION: ` header supplies the URL; any other shape is
`ErrorKind::InvalidData`. -/
def parse_answer (data : String) : Except ErrorKind String :=
  match rust_lines data with
  | [] => .error .invalidData
  | firstline :: rest =>
    if chars_start_with firstline "HTTP/1.1 200 OK".data then
      match find_location rest with
      | some url => .ok ⟨url⟩
      | none => .error .invalidData
    else .error .invalidData

/-- Rust `receive_answer` over one socket outcome: a `recv_from` failure is
propagated by `?`; a received datagram is parsed. -/
def receive_answer : RecvOutcome → Except ErrorKind String
  | .fail k => .error k
  | .packet _ data => parse_answer data

/-- `UdpSocket::set_read_timeout(Some(d))`: per its std documentation it
errors (with `ErrorKind::InvalidInput`) exactly when the duration is zero,
and succeeds otherwise. -/
def set_read_timeout (d : Nat) : Except ErrorKind Unit :=
  if d = 0 then .error .invalidInput else .ok ()

/-- Outcome of one unrolling of `BridgeFinder::next`'s body:
`exhausted` is the `return None` on timeout expiry; `emit` is a
`return Some(...)`; `skip` is a tail call `self.next()` (the internal
retry). -/
inductive StepOut where
  | exhausted
  | emit (item : DiscoveryItem) (bf : BridgeFinder)
  | skip (bf : BridgeFinder)
deriving DecidableEq

/-- One unrolling of the body of `BridgeFinder::next`
(`src/discovery.rs`), reading one `Tick` of the environment:

    let time_spent = self.start.elapsed();
    if time_spent > self.timeout { return None; }
    if let Err(e) = self.socket.set_read_timeout(Some(self.timeout - time_spent)) {
        return Some(Err(e.into()));
    }
    match receive_answer(&self.socket) {
        Ok(url) => {
            if self.seen_urls.contains(&url) { self.next() }
            else {
                self.seen_urls.insert(url.clone());
                Some(Bridge::from_description_url(url))
            }
        }
        Err(e) => {
            if e.kind() == ErrorKind::WouldBlock { self.next() }
            else { Some(Err(e.into())) }
        }
    }
-/
def step (bf : BridgeFinder) (t : Tick) : StepOut :=
  if bf.timeout < t.elapsed then
    .exhausted
  else
    match set_read_timeout (bf.timeout - t.elapsed) with
    | .error e => .emit (.err e) bf
    | .ok _ =>
      match receive_answer t.recv with
      | .ok url =>
        if url ∈ bf.seen_urls then .skip bf
        else .emit (.resolve url) ⟨bf.timeout, url :: bf.seen_urls⟩
      | .error e =>
        if e = .wouldBlock then .skip bf else .emit (.err e) bf

/-- Rust `BridgeFinder::next`: unroll `step` through the environment until
a non-`skip` outcome. The result is `none` when the environment list runs
out mid-loop (the real call would still be blocking on the socket);
otherwise `some (item?, bf, rest)` where `item? = none` models Rust's
`None` (iterator exhausted), `item? = some it` models `Some(it)`, `bf` is
the finder state after the call and `rest` the unconsumed environment. -/
def BridgeFinder.next (bf : BridgeFinder) :
    List Tick → Option (Option DiscoveryItem × BridgeFinder × List Tick)
  | [] => none
  | t :: rest =>
    match step bf t with
    | .exhausted => some (none, bf, rest)
    | .emit item bf' => some (some item, bf', rest)
    | .skip bf' => BridgeFinder.next bf' rest

/-- One whole discovery session: call `BridgeFinder.next` repeatedly —
i.e. unroll `step` over the environment — collecting every yielded item, and
stop when the iterator reports exhaustion (or the environment runs out). -/
def session (bf : BridgeFinder) : List Tick → List DiscoveryItem
  | [] => []
  | t :: rest =>
    match step bf t with
    | .exhausted => []
    | .emit item bf' => item :: session bf' rest
    | .skip bf' => session bf' rest

/-! ## Lemmas about the response protocol -/

/-- Scanning a concatenation scans the pieces in sequence, threading the
accumulators. -/
theorem register_user_scan_append (xs ys : List ApiResponseSection) :
    ∀ (errors : List ApiError) (success : Option (List (String × Value))),
      register_user_scan errors success (xs ++ ys)
        = register_user_scan (register_user_scan errors success xs).1
            (register_user_scan errors success xs).2 ys := by
  induction xs with
  | nil => intro errors success; rfl
  | cons x rest ih =>
    intro errors success
    cases x <;> simp [register_user_scan, ih]

/-- A suffix without `Success` sections leaves the stored success payload
unchanged. -/
theorem register_user_scan_snd_of_no_success :
    ∀ (ys : List ApiResponseSection),
      (∀ s ∈ ys, ∀ p, s ≠ ApiResponseSection.success p) →
      ∀ (errors : List ApiError) (success : Option (List (String × Value))),
        (register_user_scan errors success ys).2 = success
  | [], _, _, _ => rfl
  | .err e :: rest, h, errors, success =>
    register_user_scan_snd_of_no_success rest
      (fun s hs p => h s (List.mem_cons_of_mem _ hs) p) (errors ++ [e]) success
  | .success p :: _, h, _, _ =>
    absurd rfl (h (.success p) (List.mem_cons_self _ _) p)

/-- When the stored payload carries a `"username"` key, the finish step
returns its JSON serialization, whatever errors were collected. -/
theorem register_user_finish_of_username
    (p : List ApiError × Option (List (String × Value)))
    (hm : List (String × Value)) (v : Value)
    (hp : p.2 = some hm) (hv : List.lookup "username" hm = some v) :
    register_user_finish p = .ok v.render := by
  obtain ⟨errors, success⟩ := p
  simp only at hp
  subst hp
  simp [register_user_finish, hv]

/-- Scanning only `Success` sections collects no errors, and when none of
them carries a `"username"` key (nor does the payload stored beforehand)
the interpretation fails with exactly the errors already collected. -/
theorem register_user_finish_unkeyed :
    ∀ (hs : List (List (String × Value))) (errors : List ApiError)
      (success : Option (List (String × Value))),
      (∀ hm ∈ hs, List.lookup "username" hm = none) →
      (∀ hm, success = some hm → List.lookup "username" hm = none) →
      register_user_finish
          (register_user_scan errors success (hs.map ApiResponseSection.success))
        = .error errors
  | [], _, none, _, _ => rfl
  | [], _, some hm, _, h2 => by
    have hn : List.lookup "username" hm = none := h2 hm rfl
    simp [register_user_scan, register_user_finish, hn]
  | h :: t, errors, _, h1, _ => by
    simp only [List.map_cons, register_user_scan]
    exact register_user_finish_unkeyed t errors (some h)
      (fun x hx => h1 x (List.mem_cons_of_mem _ hx))
      (fun x hx => by cases hx; exact h1 h (List.mem_cons_self _ _))

/-- When some section of the response is a `Success`, the `any` loop
returns `true` regardless of the error accumulator. -/
theorem light_scan_fst_of_success :
    ∀ (response : List ApiResponseSection) (errors : List ApiError),
      (∃ hm, ApiResponseSection.success hm ∈ response) →
      (light_scan errors response).1 = true
  | [], _, ⟨_, hmem⟩ => absurd hmem (List.not_mem_nil _)
  | .success _ :: _, _, _ => rfl
  | .err e :: rest, errors, ⟨hm, hmem⟩ => by
    have hrest : ApiResponseSection.success hm ∈ rest := by
      rcases List.mem_cons.mp hmem with heq | h'
      · exact absurd heq (by simp)
      · exact h'
    exact light_scan_fst_of_success rest (errors ++ [e]) ⟨hm, hrest⟩

/-- Scanning a pure error list returns `false` and appends the errors in
order to the accumulator. -/
theorem light_scan_map_err :
    ∀ (es : List ApiError) (errors : List ApiError),
      light_scan errors (es.map ApiResponseSection.err) = (false, errors ++ es)
  | [], errors => by simp [light_scan]
  | e :: rest, errors => by
    simp only [List.map_cons, light_scan]
    rw [light_scan_map_err rest (errors ++ [e])]
    simp

/-! ## Lemmas about the discovery loop -/

/-- An internal retry (`self.next()` on duplicate URL or `WouldBlock`)
leaves the finder state unchanged. -/
theorem step_skip (bf : BridgeFinder) (t : Tick) (bf' : BridgeFinder)
    (h : step bf t = .skip bf') : bf' = bf := by
  unfold step at h
  split at h
  · simp at h
  · split at h
    · simp at h
    · split at h
      · split at h
        · exact (StepOut.skip.inj h).symm
        · simp at h
      · split at h
        · exact (StepOut.skip.inj h).symm
        · simp at h

/-- Yielding an error item leaves the finder state unchanged. -/
theorem step_emit_err (bf : BridgeFinder) (t : Tick) (k : ErrorKind)
    (bf' : BridgeFinder) (h : step bf t = .emit (.err k) bf') : bf' = bf := by
  unfold step at h
  split at h
  · simp at h
  · split at h
    · exact ((StepOut.emit.inj h).2).symm
    · split at h
      · split at h
        · simp at h
        · simp at h
      · split at h
        · simp at h
        · exact ((StepOut.emit.inj h).2).symm

/-- A resolution attempt is emitted only for a URL not yet seen, and the
successor state has that URL inserted into the seen set (insertion happens
before the `Bridge::from_description_url` call is yielded). -/
theorem step_emit_resolve (bf : BridgeFinder) (t : Tick) (u : String)
    (bf' : BridgeFinder) (h : step bf t = .emit (.resolve u) bf') :
    u ∉ bf.seen_urls ∧ bf' = ⟨bf.timeout, u :: bf.seen_urls⟩ := by
  unfold step at h
  split at h
  · simp at h
  · split at h
    · simp at h
    · split at h
      · split at h
        · simp at h
        · rename_i hmem
          obtain ⟨hitem, hbf⟩ := StepOut.emit.inj h
          obtain hu := DiscoveryItem.resolve.inj hitem
          subst hu
          exact ⟨hmem, hbf.symm⟩
      · split at h
        · simp at h
        · simp at h

/-- Counting invariant for a whole session: a URL already in the seen set
is never the subject of a resolution attempt, and a fresh URL is resolved
at most once. -/
theorem session_count_resolve (u : String) :
    ∀ (env : List Tick) (bf : BridgeFinder),
      (session bf env).count (.resolve u)
        ≤ if u ∈ bf.seen_urls then 0 else 1
  | [], bf => by simp [session]
  | t :: rest, bf => by
    simp only [session]
    cases hstep : step bf t with
    | exhausted => simp
    | skip bf' =>
      rw [step_skip bf t bf' hstep]
      exact session_count_resolve u rest bf
    | emit item bf' =>
      cases item with
      | err k =>
        rw [step_emit_err bf t k bf' hstep, List.count_cons]
        simpa using session_count_resolve u rest bf
      | resolve v =>
        obtain ⟨hv, hbf⟩ := step_emit_resolve bf t v bf' hstep
        subst hbf
        rw [List.count_cons]
        by_cases huv : v = u
        · subst huv
          have hmem : v ∈ (⟨bf.timeout, v :: bf.seen_urls⟩ : BridgeFinder).seen_urls :=
            List.mem_cons_self _ _
          have hle := session_count_resolve v rest ⟨bf.timeout, v :: bf.seen_urls⟩
          rw [if_pos hmem] at hle
          simp [hv, Nat.le_antisymm hle (Nat.zero_le _)]
        · have hiff : u ∈ v :: bf.seen_urls ↔ u ∈ bf.seen_urls := by
            constructor
            · intro hmem
              rcases List.mem_cons.mp hmem with he | h'
              · exact absurd he.symm huv
              · exact h'
            · exact fun h' => List.mem_cons_of_mem _ h'
          have hle := session_count_resolve u rest ⟨bf.timeout, v :: bf.seen_urls⟩
          simp only [] at hle
          by_cases hu : u ∈ bf.seen_urls
          · rw [if_pos (by simpa [hiff] using hu)] at hle
            simpa [if_pos hu, huv] using hle
          · rw [if_neg (by simpa [hiff] using hu)] at hle
            simpa [if_neg hu, huv] using hle

/-! ## Claim theorems: response protocol -/

/-- C2 (code bug): evaluating the code at the claim's own scenario, the
registration response `[{"success": {"username": "newdev01"}}]` yields
`Ok("\"newdev01\"")` — the JSON serialization of the payload value, with
literal quote characters, because the code calls
`serde_json::Value::to_string()` — and not `Ok("newdev01")` as the claim
and the spec state. -/
theorem register_user_quotes_username :
    register_user_interpret
        [.success [("username", Value.string "newdev01")]] = .ok "\"newdev01\""
    ∧ "\"newdev01\"" ≠ "newdev01" :=
  ⟨by decide, by decide⟩

/-- C3 counterexample: with two `Success` sections each carrying a
`"username"`, the interpretation returns the value from the second (last)
section, not the first: the loop overwrites its `success` slot on every
`Success`. The result differs from the first section's username both in
raw and in JSON-serialized form. -/
theorem registration_first_success_cex :
    register_user_interpret
        [.success [("username", Value.string "first")],
         .success [("username", Value.string "second")]]
        = .ok "\"second\""
    ∧ (Except.ok "\"second\"" : Except (List ApiError) String) ≠ .ok "\"first\""
    ∧ (Except.ok "\"second\"" : Except (List ApiError) String) ≠ .ok "first" :=
  ⟨by decide, by decide, by decide⟩

/-- C3 (amended): the scan keeps overwriting the stored payload, so the
LAST `Success` section in response order is the one consulted: whenever the
response ends, after its last `Success` section `hm`, in (possibly zero)
non-`Success` sections, and `hm` maps `"username"` to `v`, the
interpretation returns `Ok` of the JSON serialization of `v`, discarding
all collected errors. -/
theorem registration_last_success_wins (l1 l2 : List ApiResponseSection)
    (hm : List (String × Value)) (v : Value)
    (hl2 : ∀ s ∈ l2, ∀ p, s ≠ ApiResponseSection.success p)
    (hv : List.lookup "username" hm = some v) :
    register_user_interpret (l1 ++ ApiResponseSection.success hm :: l2)
      = .ok v.render := by
  unfold register_user_interpret
  rw [register_user_scan_append]
  refine register_user_finish_of_username _ hm v ?_ hv
  have hstep :
      register_user_scan (register_user_scan [] none l1).1
          (register_user_scan [] none l1).2 (ApiResponseSection.success hm :: l2)
        = register_user_scan (register_user_scan [] none l1).1 (some hm) l2 := rfl
  rw [hstep]
  exact register_user_scan_snd_of_no_success l2 hl2 _ _

/-- C3 witness: concrete instance of the amended claim — the response
`[{"success": {"username": "a"}}, {"success": {"username": "b"}}]` yields
the serialization of `"b"`. -/
theorem registration_last_success_wins_witness :
    register_user_interpret
        [.success [("username", Value.string "a")], .success [("username", Value.string "b")]]
      = .ok (Value.string "b").render :=
  registration_last_success_wins
    [.success [("username", Value.string "a")]] [] [("username", Value.string "b")]
    (Value.string "b") (by simp) (by decide)

/-- C4: a mutation response containing at least one `Success` section is
interpreted as overall success, whatever the `Success` payload contains and
however many `Error` sections surround it. -/
theorem light_change_any_success (response : List ApiResponseSection)
    (h : ∃ hm, ApiResponseSection.success hm ∈ response) :
    light_change_result response = .ok () := by
  have ht : (light_scan [] response).1 = true :=
    light_scan_fst_of_success response [] h
  simp [light_change_result, ht]

/-- C4 witness: a response with one error (arbitrary content) followed by
one empty-payload success is interpreted as success. -/
theorem light_change_any_success_witness :
    light_change_result
        [.err ⟨1, "/lights/1/state/on", "unauthorized user"⟩, .success []]
      = .ok () :=
  light_change_any_success _ ⟨[], by simp⟩

/-- C5: a mutation response consisting only of `Error` sections (n ≥ 1) is
interpreted as a failure carrying exactly those n errors, in response
order. -/
theorem light_change_only_errors (es : List ApiError) (_hne : es ≠ []) :
    light_change_result (es.map ApiResponseSection.err) = .error es := by
  simp [light_change_result, light_scan_map_err es []]

/-- C5 witness: the spec's scenario — a single `unauthorized user` error —
yields a failure carrying exactly that error. -/
theorem light_change_only_errors_witness :
    light_change_result [.err ⟨1, "/lights/1/state/on", "unauthorized user"⟩]
      = .error [⟨1, "/lights/1/state/on", "unauthorized user"⟩] :=
  light_change_only_errors [⟨1, "/lights/1/state/on", "unauthorized user"⟩]
    (by decide)

/-- C8: a registration response with zero sections, or consisting only of
`Success` sections none of which carries a `"username"` key, is interpreted
as a failure with an empty aggregated error list; the interpretation is a
total function, so no input can make it panic. -/
theorem registration_empty_or_unkeyed (hs : List (List (String × Value)))
    (hh : ∀ hm ∈ hs, List.lookup "username" hm = none) :
    register_user_interpret [] = .error []
    ∧ register_user_interpret (hs.map ApiResponseSection.success) = .error [] :=
  ⟨rfl,
   register_user_finish_unkeyed hs [] none hh (fun _ hx => by cases hx)⟩

/-- C8 witness: the empty response and a response of two keyless successes
both fail with an empty error list. -/
theorem registration_empty_or_unkeyed_witness :
    register_user_interpret [] = .error []
    ∧ register_user_interpret
        [.success [("clientkey", Value.string "x")], .success []] = .error [] :=
  registration_empty_or_unkeyed [[("clientkey", Value.string "x")], []] (by decide)

/-- C9: `switch_light(user, light, on)` is definitionally the general
attribute mutation `modify_light(user, light, "on", on)`: same request URL,
same single-key body, same interpretation of the wire response. -/
theorem switch_light_eq_modify_light (url_base user light : String)
    (onVal : Bool) (wire_response : List ApiResponseSection) :
    switch_light url_base user light onVal wire_response
      = modify_light url_base user light "on" (.boolean onVal) wire_response := rfl

/-! ## Claim theorems: discovery -/

/-- C1 counterexample: a malformed packet (first line is not an
`HTTP/1.1 200 OK` status) received well within the timeout is NOT silently
skipped: `next` emits `Some(Err(InvalidData))` to the caller, because only
`WouldBlock` errors take the internal-retry branch. The claim's "internally
retries without emitting any item" would require the inner item slot to be
absent, but it holds `some (err invalidData)`. -/
theorem malformed_packet_skip_cex :
    BridgeFinder.next ⟨10, []⟩
        [⟨0, .packet "192.168.0.9:1900" "NOTIFY * HTTP/1.1"⟩]
      = some (some (.err .invalidData), ⟨10, []⟩, []) := by decide

/-- C1 (amended): a malformed discovery response received before the
deadline does not end the session — the finder state (seen set, timeout) is
unchanged and iteration continues on the remaining environment — but it is
surfaced to the caller as a yielded `Err(InvalidData)` item rather than
being skipped silently; only timeout-class (`WouldBlock`) receive failures
are retried internally without emitting. -/
theorem malformed_packet_nonfatal (bf : BridgeFinder) (e : Nat)
    (addr data : String) (rest : List Tick)
    (hl : e < bf.timeout) (hp : parse_answer data = .error .invalidData) :
    BridgeFinder.next bf (⟨e, .packet addr data⟩ :: rest)
        = some (some (.err .invalidData), bf, rest)
    ∧ session bf (⟨e, .packet addr data⟩ :: rest)
        = .err .invalidData :: session bf rest := by
  have hn : ¬ bf.timeout < e := by omega
  have hz : ¬ bf.timeout - e = 0 := by omega
  have hs : step bf ⟨e, .packet addr data⟩ = .emit (.err .invalidData) bf := by
    simp [step, set_read_timeout, receive_answer, hn, hz, hp,
      (by decide : ErrorKind.invalidData ≠ ErrorKind.wouldBlock)]
  exact ⟨by simp [BridgeFinder.next, hs], by simp [session, hs]⟩

/-- C1 witness: concrete instance of the amended claim at a garbage
datagram arriving at time 3 of a 10-unit session. -/
theorem malformed_packet_nonfatal_witness :
    BridgeFinder.next ⟨10, []⟩ [⟨3, .packet "10.0.0.5:1900" "SSDP GARBAGE"⟩]
        = some (some (.err .invalidData), ⟨10, []⟩, [])
    ∧ session ⟨10, []⟩ [⟨3, .packet "10.0.0.5:1900" "SSDP GARBAGE"⟩]
        = .err .invalidData :: session ⟨10, []⟩ [] :=
  malformed_packet_nonfatal ⟨10, []⟩ 3 "10.0.0.5:1900" "SSDP GARBAGE" []
    (by decide) (by decide)

/-- C6 counterexample: at remaining time exactly 0 (elapsed = timeout = 5)
the call does NOT yield nothing: the code's guard is the strict
`time_spent > self.timeout`, so it falls through and passes the zero
duration `timeout - time_spent` to `set_read_timeout`, which std documents
as an error — the call yields `Some(Err(InvalidInput))`. -/
theorem timeout_boundary_cex :
    BridgeFinder.next ⟨5, []⟩ [⟨5, .fail .wouldBlock⟩]
      = some (some (.err .invalidInput), ⟨5, []⟩, []) := by decide

/-- C6 (amended): once the observed elapsed time STRICTLY exceeds the
timeout (remaining time < 0), `next` yields nothing and leaves the state
unchanged, and this is terminal: every further call whose observed elapsed
time still exceeds the timeout — which monotonicity of `Instant::elapsed`
guarantees — also yields nothing, so the whole remaining session is empty.
At remaining time exactly 0 the call instead yields `Some(Err)` (see the
counterexample). -/
theorem timeout_strict_terminal :
    (∀ (bf : BridgeFinder) (t : Tick) (rest : List Tick),
        bf.timeout < t.elapsed →
        BridgeFinder.next bf (t :: rest) = some (none, bf, rest))
    ∧ (∀ (bf : BridgeFinder) (env : List Tick),
        (∀ t ∈ env, bf.timeout < t.elapsed) → session bf env = []) := by
  constructor
  · intro bf t rest h
    have hs : step bf t = .exhausted := by simp [step, h]
    simp [BridgeFinder.next, hs]
  · intro bf env h
    cases env with
    | nil => rfl
    | cons t rest =>
      have hs : step bf t = .exhausted := by
        simp [step, h t (List.mem_cons_self _ _)]
      simp [session, hs]

/-- C6 witness: with timeout 5, a call observing elapsed time 6 yields
nothing, and a session whose observations are all past the deadline yields
nothing even when a well-formed response would be available. -/
theorem timeout_strict_terminal_witness :
    BridgeFinder.next ⟨5, []⟩ [⟨6, .fail .wouldBlock⟩] = some (none, ⟨5, []⟩, [])
    ∧ session ⟨5, []⟩
        [⟨6, .fail .wouldBlock⟩,
         ⟨7, .packet "192.168.1.2:1900" "HTTP/1.1 200 OK\nLOCATION: http://late/d.xml"⟩]
      = [] :=
  ⟨timeout_strict_terminal.1 ⟨5, []⟩ ⟨6, .fail .wouldBlock⟩ [] (by decide),
   timeout_strict_terminal.2 ⟨5, []⟩ _ (by decide)⟩

/-- C7: within one session, when two well-formed responses advertising the
same location URL arrive before the deadline — from any two source
addresses, which the code discards unread — exactly one resolution attempt
(`Bridge::from_description_url`) is made and yielded for that URL, and the
duplicate is skipped without emitting an item: the session trace is exactly
`[resolve u]`. -/
theorem discovery_dedup_single_resolution (bf : BridgeFinder)
    (u addr1 addr2 data1 data2 : String) (e1 e2 : Nat)
    (hu : u ∉ bf.seen_urls) (h1 : e1 < bf.timeout) (h2 : e2 < bf.timeout)
    (hp1 : parse_answer data1 = .ok u) (hp2 : parse_answer data2 = .ok u) :
    session bf [⟨e1, .packet addr1 data1⟩, ⟨e2, .packet addr2 data2⟩]
      = [.resolve u] := by
  have hn1 : ¬ bf.timeout < e1 := by omega
  have hz1 : ¬ bf.timeout - e1 = 0 := by omega
  have hn2 : ¬ bf.timeout < e2 := by omega
  have hz2 : ¬ bf.timeout - e2 = 0 := by omega
  have hs1 : step bf ⟨e1, .packet addr1 data1⟩
      = .emit (.resolve u) ⟨bf.timeout, u :: bf.seen_urls⟩ := by
    simp [step, set_read_timeout, receive_answer, hn1, hz1, hp1, hu]
  have hs2 : step (⟨bf.timeout, u :: bf.seen_urls⟩ : BridgeFinder)
      ⟨e2, .packet addr2 data2⟩ = .skip ⟨bf.timeout, u :: bf.seen_urls⟩ := by
    simp [step, set_read_timeout, receive_answer, hn2, hz2, hp2]
  simp [session, hs1, hs2]

/-- C7 witness: two identical-location responses from two different source
addresses, at times 0 and 3 of a 10-unit session, produce exactly one
resolution attempt. -/
theorem discovery_dedup_single_resolution_witness :
    session ⟨10, []⟩
        [⟨0, .packet "192.168.1.2:1900"
            "HTTP/1.1 200 OK\r\nST: upnp:rootdevice\r\nLOCATION: http://192.168.1.2:80/description.xml\r\n\r\n"⟩,
         ⟨3, .packet "192.168.1.77:1900"
            "HTTP/1.1 200 OK\r\nST: upnp:rootdevice\r\nLOCATION: http://192.168.1.2:80/description.xml\r\n\r\n"⟩]
      = [.resolve "http://192.168.1.2:80/description.xml"] :=
  discovery_dedup_single_resolution ⟨10, []⟩
    "http://192.168.1.2:80/description.xml" "192.168.1.2:1900" "192.168.1.77:1900"
    "HTTP/1.1 200 OK\r\nST: upnp:rootdevice\r\nLOCATION: http://192.168.1.2:80/description.xml\r\n\r\n"
    "HTTP/1.1 200 OK\r\nST: upnp:rootdevice\r\nLOCATION: http://192.168.1.2:80/description.xml\r\n\r\n"
    0 3 (by decide) (by decide) (by decide) (by decide) (by decide)

/-- C10: a novel location URL is inserted into the seen set before its
resolution is attempted — whenever a step emits a resolution attempt for
`u`, the URL was not yet seen and the successor state already contains it —
and consequently any session trace contains at most one resolution attempt
per URL, even when that single attempt's result was a failure: the URL is
never retried. -/
theorem seen_before_resolve_at_most_once :
    (∀ (bf : BridgeFinder) (t : Tick) (u : String) (bf' : BridgeFinder),
        step bf t = .emit (.resolve u) bf' →
        u ∉ bf.seen_urls ∧ u ∈ bf'.seen_urls)
    ∧ (∀ (bf : BridgeFinder) (env : List Tick) (u : String),
        (session bf env).count (.resolve u) ≤ 1) := by
  constructor
  · intro bf t u bf' h
    obtain ⟨hu, hbf⟩ := step_emit_resolve bf t u bf' h
    exact ⟨hu, by rw [hbf]; exact List.mem_cons_self _ _⟩
  · intro bf env u
    refine le_trans (session_count_resolve u env bf) ?_
    split <;> omega

/-- C10 witness: a concrete step that emits a resolution attempt has the
URL fresh before and recorded after, and a concrete session (whose single
resolution attempt may be assumed failed — the model yields the attempt
itself) never resolves the same URL twice. -/
theorem seen_before_resolve_at_most_once_witness :
    ("http://b/d.xml" ∉ (⟨10, []⟩ : BridgeFinder).seen_urls
      ∧ "http://b/d.xml" ∈ (⟨10, ["http://b/d.xml"]⟩ : BridgeFinder).seen_urls)
    ∧ (session ⟨10, []⟩
          [⟨0, .packet "192.168.1.2:1900" "HTTP/1.1 200 OK\nLOCATION: http://b/d.xml"⟩,
           ⟨1, .packet "192.168.1.3:1900" "HTTP/1.1 200 OK\nLOCATION: http://b/d.xml"⟩]).count
        (.resolve "http://b/d.xml") ≤ 1 :=
  ⟨seen_before_resolve_at_most_once.1 ⟨10, []⟩
      ⟨0, .packet "192.168.1.2:1900" "HTTP/1.1 200 OK\nLOCATION: http://b/d.xml"⟩
      "http://b/d.xml" ⟨10, ["http://b/d.xml"]⟩ (by decide),
   seen_before_resolve_at_most_once.2 ⟨10, []⟩
      [⟨0, .packet "192.168.1.2:1900" "HTTP/1.1 200 OK\nLOCATION: http://b/d.xml"⟩,
       ⟨1, .packet "192.168.1.3:1900" "HTTP/1.1 200 OK\nLOCATION: http://b/d.xml"⟩]
      "http://b/d.xml"⟩

end Hust
